import Mathlib

/-!
# Verification of the collage layout engine against its specification

This development embeds the layout/fitting core of the collage repository
(aspect fitting, slot bookkeeping, grid construction, widget destruction,
browser-preview parameter handling) in Lean 4 and settles the stated
properties.

The browser preview application (`src/browser_app.py`) and the headless
widget shim (`src/_headless_tk.py`) are embedded directly from their
Python sources.  The aspect-fitting core (`AspectFitter`,
`CollageSlotImage`, `CollageGrid`) is exercised by the repository tests
but its source module is not part of the source tree, so it is modelled
from the specification text (each such definition carries a
`Modelled from the spec:` doc comment).
-/

namespace Collage

/-! ## AspectFitter -/

/-- Result record of an aspect fit, as described in the data model of the
spec: scaled dimensions of the image plus the centering offsets. -/
structure AspectFitResult where
  scaled_width : Nat
  scaled_height : Nat
  offset_x : Nat
  offset_y : Nat
deriving DecidableEq

/-- Rounding division on naturals: `rdiv a b` is `a / b` rounded to the
nearest integer (ties round up), computed as `⌊(2a + b) / (2b)⌋`.  Used to
implement the rounding `round(source * scale)` of the spec exactly on integers. -/
def rdiv (a b : Nat) : Nat := (2 * a + b) / (2 * b)

/-- Modelled from the spec: `AspectFitter.fit` (the fitting module of the
repository is absent from the source tree; only its tests are present).
Per the spec algorithm: `scale = min(target_width / source_width,
target_height / source_height)`; each scaled dimension is
`round(source * scale)` clamped so it never exceeds the corresponding
target dimension; offsets are floor halves of the leftover.  The branch
condition `tw * sh ≤ th * sw` is the integer form of
`tw / sw ≤ th / sh` for positive sources.  The spec does not fix a
tie-break for `round`; ties round up here (no settled property depends
on the tie-break). -/
def fit (sw sh tw th : Nat) : AspectFitResult :=
  let scaledW :=
    if tw * sh ≤ th * sw then min (rdiv (sw * tw) sw) tw
    else min (rdiv (sw * th) sh) tw
  let scaledH :=
    if tw * sh ≤ th * sw then min (rdiv (sh * tw) sw) th
    else min (rdiv (sh * th) sh) th
  { scaled_width := scaledW
    scaled_height := scaledH
    offset_x := (tw - scaledW) / 2
    offset_y := (th - scaledH) / 2 }

/-! ## CollageSlotImage -/

/-- Modelled from the spec: a slot image owns the native
dimensions of its source image, the current fit result, and the target it was last fit
against. -/
structure CollageSlotImage where
  native_width : Nat
  native_height : Nat
  fitRes : AspectFitResult
  target : Nat × Nat
deriving DecidableEq

/-- Modelled from the spec: `CollageSlotImage.open` computes the initial
fit from the native pixel dimensions of the image and the target. -/
def openImage (nw nh : Nat) (t : Nat × Nat) : CollageSlotImage :=
  { native_width := nw, native_height := nh
    fitRes := fit nw nh t.1 t.2, target := t }

/-- Modelled from the spec: `resize(new_target)` recomputes the fit
against the new target using the original native dimensions of the image,
never the previously scaled dimensions. -/
def resize (img : CollageSlotImage) (t : Nat × Nat) : CollageSlotImage :=
  { img with fitRes := fit img.native_width img.native_height t.1 t.2
             target := t }

/-- Modelled from the spec: read accessor for the stored fit result. -/
def current_fit (img : CollageSlotImage) : AspectFitResult := img.fitRes

/-! ## Helper lemmas about `fit` -/

/-- Exact rounding division: `rdiv (b * a) b = a` when `b > 0`. -/
theorem rdiv_mul_self (a b : Nat) (hb : 0 < b) : rdiv (b * a) b = a := by
  unfold rdiv
  have h : 2 * (b * a) + b = b * (2 * a + 1) := by ring
  rw [h, Nat.mul_comm 2 b, Nat.mul_div_mul_left _ _ hb]
  omega

/-- The scaled dimensions never exceed the target dimensions. -/
theorem fit_scaled_le (sw sh tw th : Nat) :
    (fit sw sh tw th).scaled_width ≤ tw ∧ (fit sw sh tw th).scaled_height ≤ th := by
  unfold fit
  constructor
  · dsimp only
    split <;> exact Nat.min_le_right _ _
  · dsimp only
    split <;> exact Nat.min_le_right _ _

/-- The offsets of a fit are the floor halves of the leftover space. -/
theorem fit_offsets (sw sh tw th : Nat) :
    (fit sw sh tw th).offset_x = (tw - (fit sw sh tw th).scaled_width) / 2 ∧
      (fit sw sh tw th).offset_y = (th - (fit sw sh tw th).scaled_height) / 2 :=
  ⟨rfl, rfl⟩

/-- Rounded division is bounded by exact division: `rdiv a b ≤ c` whenever
`2 * a + b < 2 * b * (c + 1)`, in particular when `a ≤ b * c`. -/
theorem rdiv_le (a b c : Nat) (hb : 0 < b) (h : a ≤ b * c) : rdiv a b ≤ c := by
  unfold rdiv
  have h2 : 2 * a + b < (c + 1) * (2 * b) := by nlinarith
  have := (Nat.div_lt_iff_lt_mul (by omega : 0 < 2 * b)).mpr h2
  omega

/-- Two-sided multiplicative bounds for rounded division. -/
theorem rdiv_spec (a b : Nat) (hb : 0 < b) :
    2 * (b * rdiv a b) ≤ 2 * a + b ∧ 2 * a < 2 * (b * rdiv a b) + 2 * b := by
  unfold rdiv
  have hd := Nat.div_add_mod (2 * a + b) (2 * b)
  have hm : (2 * a + b) % (2 * b) < 2 * b := Nat.mod_lt _ (by omega)
  have he : 2 * (b * ((2 * a + b) / (2 * b))) = 2 * b * ((2 * a + b) / (2 * b)) := by
    ring
  rw [he]
  generalize hq : (2 * a + b) / (2 * b) = q at hd ⊢
  generalize hr : (2 * a + b) % (2 * b) = r at hd hm
  have he2 : 2 * b * q = 2 * (b * q) := by ring
  rw [he2] at hd ⊢
  generalize hm2 : b * q = m at hd ⊢
  omega

/-- In the branch where the width ratio is the binding one, the fit keeps
the full target width and rounds the height. -/
theorem fit_wide (sw sh tw th : Nat) (hsw : 0 < sw) (h : tw * sh ≤ th * sw) :
    (fit sw sh tw th).scaled_width = tw ∧
      (fit sw sh tw th).scaled_height = rdiv (sh * tw) sw := by
  have hle : rdiv (sh * tw) sw ≤ th := by
    apply rdiv_le _ _ _ hsw
    calc sh * tw = tw * sh := Nat.mul_comm _ _
    _ ≤ th * sw := h
    _ = sw * th := Nat.mul_comm _ _
  unfold fit
  dsimp only
  rw [if_pos h, if_pos h, rdiv_mul_self tw sw hsw, Nat.min_self,
    Nat.min_eq_left hle]
  exact ⟨rfl, rfl⟩

/-- In the branch where the height ratio is the binding one, the fit keeps
the full target height and rounds the width. -/
theorem fit_tall (sw sh tw th : Nat) (hsh : 0 < sh) (h : ¬ tw * sh ≤ th * sw)
    (hth : th * sw ≤ tw * sh) :
    (fit sw sh tw th).scaled_width = rdiv (sw * th) sh ∧
      (fit sw sh tw th).scaled_height = th := by
  have hle : rdiv (sw * th) sh ≤ tw := by
    apply rdiv_le _ _ _ hsh
    calc sw * th = th * sw := Nat.mul_comm _ _
    _ ≤ tw * sh := hth
    _ = sh * tw := Nat.mul_comm _ _
  unfold fit
  dsimp only
  rw [if_neg h, if_neg h, rdiv_mul_self th sh hsh, Nat.min_self,
    Nat.min_eq_left hle]
  exact ⟨rfl, rfl⟩

/-! ## Claims about the aspect fitter and the slot image -/

/-- Claim C1 (amended): for every fit, the centering offsets satisfy
`2 * offset + scaled ≤ target ≤ 2 * offset + scaled + 1` in each
dimension; the centering equation `2 * offset + scaled = target` holds
exactly when `target - scaled` is even, and a single odd leftover pixel
lands on the trailing edge. -/
theorem claim_C1 (sw sh tw th : Nat) (hsw : 0 < sw) (hsh : 0 < sh) :
    (2 * (fit sw sh tw th).offset_x + (fit sw sh tw th).scaled_width ≤ tw ∧
      tw ≤ 2 * (fit sw sh tw th).offset_x + (fit sw sh tw th).scaled_width + 1) ∧
    (2 * (fit sw sh tw th).offset_y + (fit sw sh tw th).scaled_height ≤ th ∧
      th ≤ 2 * (fit sw sh tw th).offset_y + (fit sw sh tw th).scaled_height + 1) := by
  obtain ⟨hw, hh⟩ := fit_scaled_le sw sh tw th
  obtain ⟨hox, hoy⟩ := fit_offsets sw sh tw th
  rw [hox, hoy]
  omega

/-- Claim C1 witness: the amended bounds hold at the concrete fit of a
1280 by 960 source into a 1000 by 800 target. -/
theorem claim_C1_witness :
    (2 * (fit 1280 960 1000 800).offset_x + (fit 1280 960 1000 800).scaled_width ≤ 1000 ∧
      1000 ≤ 2 * (fit 1280 960 1000 800).offset_x + (fit 1280 960 1000 800).scaled_width + 1) ∧
    (2 * (fit 1280 960 1000 800).offset_y + (fit 1280 960 1000 800).scaled_height ≤ 800 ∧
      800 ≤ 2 * (fit 1280 960 1000 800).offset_y + (fit 1280 960 1000 800).scaled_height + 1) :=
  claim_C1 1280 960 1000 800 (by decide) (by decide)

/-- Claim C1 counterexample: the exact centering equation fails for a
1 by 1 source fit into a 3 by 4 target, where the fit result is
`scaled = 3 by 3`, `offset_y = 0`, so `2 * 0 + 3 = 3 ≠ 4`. -/
theorem claim_C1_cex :
    ¬ (2 * (fit 1 1 3 4).offset_y + (fit 1 1 3 4).scaled_height = 4) := by
  decide

/-- Claim C2 (amended): resizing the slot image opened on the 1280 by 960
test source to the target 1000 by 800 yields scaled dimensions 1000 by
750 with centering offsets `offset_x = 0` and `offset_y = 25`. -/
theorem claim_C2 :
    (resize (resize (openImage 1280 960 (30, 30)) (10, 10)) (1000, 800)).fitRes =
      ⟨1000, 750, 0, 25⟩ := by
  decide

/-- Claim C2 counterexample: under the fit algorithm of the spec, the
resize of the 1280 by 960 source to target 1000 by 800 does not produce
the claimed `960 by 768` with offsets `(20, 16)`. -/
theorem claim_C2_cex :
    ¬ ((resize (resize (openImage 1280 960 (30, 30)) (10, 10)) (1000, 800)).fitRes =
      ⟨960, 768, 20, 16⟩) := by
  decide

/-- Claim C4: for positive source and target dimensions the fit preserves
the source aspect ratio within one pixel of rounding: the cross products
`scaled_width * source_height` and `scaled_height * source_width` differ
by at most `max source_width source_height` (one pixel of error in a
scaled dimension). -/
theorem claim_C4 (sw sh tw th : Nat) (hsw : 0 < sw) (hsh : 0 < sh)
    (htw : 0 < tw) (hth : 0 < th) :
    (fit sw sh tw th).scaled_width * sh ≤
        (fit sw sh tw th).scaled_height * sw + max sw sh ∧
      (fit sw sh tw th).scaled_height * sw ≤
        (fit sw sh tw th).scaled_width * sh + max sw sh := by
  rcases Nat.le_total (tw * sh) (th * sw) with h | h
  · obtain ⟨hW, hH⟩ := fit_wide sw sh tw th hsw h
    rw [hW, hH]
    obtain ⟨h1, h2⟩ := rdiv_spec (sh * tw) sw hsw
    have hmax : sw ≤ max sw sh := Nat.le_max_left _ _
    constructor <;> nlinarith [h1, h2, hmax]
  · by_cases hc : tw * sh ≤ th * sw
    · obtain ⟨hW, hH⟩ := fit_wide sw sh tw th hsw hc
      rw [hW, hH]
      obtain ⟨h1, h2⟩ := rdiv_spec (sh * tw) sw hsw
      have hmax : sw ≤ max sw sh := Nat.le_max_left _ _
      constructor <;> nlinarith [h1, h2, hmax]
    · obtain ⟨hW, hH⟩ := fit_tall sw sh tw th hsh hc h
      rw [hW, hH]
      obtain ⟨h1, h2⟩ := rdiv_spec (sw * th) sh hsh
      have hmax : sh ≤ max sw sh := Nat.le_max_right _ _
      constructor <;> nlinarith [h1, h2, hmax]

/-- Claim C4 witness: aspect preservation holds at the concrete fit of a
1280 by 960 source into a 100 by 150 target. -/
theorem claim_C4_witness :
    (fit 1280 960 100 150).scaled_width * 960 ≤
        (fit 1280 960 100 150).scaled_height * 1280 + max 1280 960 ∧
      (fit 1280 960 100 150).scaled_height * 1280 ≤
        (fit 1280 960 100 150).scaled_width * 960 + max 1280 960 :=
  claim_C4 1280 960 100 150 (by decide) (by decide) (by decide) (by decide)

/-- Claim C5: resizing to target A and then to target B equals resizing
directly to B, and the stored fit is the fit of the original native
dimensions against B; intermediate scaled sizes never influence later
fits. -/
theorem claim_C5 (img : CollageSlotImage) (A B : Nat × Nat) :
    resize (resize img A) B = resize img B ∧
      (resize (resize img A) B).fitRes =
        fit img.native_width img.native_height B.1 B.2 :=
  ⟨rfl, rfl⟩

/-- Claim C6: the fit is total on zero targets: given positive source
dimensions, a zero target width or height yields a zero-size result
rather than an error. -/
theorem claim_C6 (sw sh tw th : Nat) (hsw : 0 < sw) (hsh : 0 < sh)
    (h : tw = 0 ∨ th = 0) :
    (fit sw sh tw th).scaled_width = 0 ∧ (fit sw sh tw th).scaled_height = 0 := by
  have hr0 : ∀ b : Nat, 0 < b → rdiv 0 b = 0 := by
    intro b hb
    unfold rdiv
    exact Nat.div_eq_of_lt (by omega)
  unfold fit
  dsimp only
  rcases h with h | h
  · subst h
    rw [if_pos (by simp), if_pos (by simp)]
    rw [Nat.mul_zero, Nat.mul_zero, hr0 sw hsw]
    exact ⟨Nat.min_zero _, Nat.zero_min _⟩
  · subst h
    by_cases hc : tw * sh ≤ 0 * sw
    · have htw : tw = 0 := by
        rcases (by simpa using hc : tw = 0 ∨ sh = 0) with h0 | h0
        · exact h0
        · omega
      subst htw
      rw [if_pos hc, if_pos hc]
      rw [Nat.mul_zero, Nat.mul_zero, hr0 sw hsw]
      exact ⟨Nat.min_zero _, Nat.zero_min _⟩
    · rw [if_neg hc, if_neg hc]
      rw [Nat.mul_zero, Nat.mul_zero, hr0 sh hsh]
      exact ⟨Nat.zero_min _, Nat.min_zero _⟩

/-- Claim C6 witness: a zero target height yields a zero-size result at
the concrete fit of a 5 by 5 source. -/
theorem claim_C6_witness :
    (fit 5 5 7 0).scaled_width = 0 ∧ (fit 5 5 7 0).scaled_height = 0 :=
  claim_C6 5 5 7 0 (by decide) (by decide) (Or.inr rfl)

/-- Claim C7: resize is idempotent for a fixed target: resizing twice
with the same target leaves the whole slot image state, in particular
the stored fit result, identical after each call. -/
theorem claim_C7 (img : CollageSlotImage) (T : Nat × Nat) :
    resize (resize img T) T = resize img T ∧
      (resize (resize img T) T).fitRes = (resize img T).fitRes :=
  ⟨rfl, rfl⟩

/-! ## CollageGrid -/

/-- Modelled from the spec: a grid owns a row-major sequence of optional
slot images plus the shared configuration. -/
structure CollageGrid where
  rows : Int
  cols : Int
  slot_width : Nat
  slot_height : Nat
  margin : Nat
  corner_radius : Nat
  slots : List (Option CollageSlotImage)
deriving DecidableEq

/-- Modelled from the spec: `CollageGrid.create` allocates `rows * cols`
empty slots; `rows ≥ 1`, `cols ≥ 1`; zero or negative raises a
configuration error (modelled as `Except.error`). -/
def CollageGrid.create (rows cols : Int)
    (slot_width slot_height margin corner_radius : Nat) :
    Except String CollageGrid :=
  if rows < 1 ∨ cols < 1 then
    Except.error "configuration error: rows and cols must be at least 1"
  else
    Except.ok
      { rows := rows, cols := cols, slot_width := slot_width
        slot_height := slot_height, margin := margin
        corner_radius := corner_radius
        slots := List.replicate (rows.toNat * cols.toNat) none }

/-- Claim C9: grid creation fails with a configuration error exactly when
`rows < 1` or `cols < 1`, and otherwise succeeds with `rows * cols` empty
slots. -/
theorem claim_C9 (rows cols : Int) (sw sh m cr : Nat) :
    (rows < 1 ∨ cols < 1 →
      CollageGrid.create rows cols sw sh m cr =
        Except.error "configuration error: rows and cols must be at least 1") ∧
    (1 ≤ rows → 1 ≤ cols →
      ∃ g, CollageGrid.create rows cols sw sh m cr = Except.ok g ∧
        g.slots.length = rows.toNat * cols.toNat ∧
        ∀ s ∈ g.slots, s = none) := by
  constructor
  · intro h
    unfold CollageGrid.create
    rw [if_pos h]
  · intro hr hc
    have hcond : ¬ (rows < 1 ∨ cols < 1) := by omega
    unfold CollageGrid.create
    rw [if_neg hcond]
    exact ⟨_, rfl, List.length_replicate _ _,
      fun s hs => List.eq_of_mem_replicate hs⟩

/-- Claim C9 witness: creation with zero rows fails, and a 2 by 3 grid is
created with six empty slots. -/
theorem claim_C9_witness :
    CollageGrid.create 0 3 30 30 0 0 =
        Except.error "configuration error: rows and cols must be at least 1" ∧
      ∃ g, CollageGrid.create 2 3 30 30 0 0 = Except.ok g ∧
        g.slots.length = 6 ∧ ∀ s ∈ g.slots, s = none := by
  constructor
  · exact (claim_C9 0 3 30 30 0 0).1 (Or.inl (by decide))
  · obtain ⟨g, h1, h2, h3⟩ := (claim_C9 2 3 30 30 0 0).2 (by decide) (by decide)
    exact ⟨g, h1, h2.trans (by decide), h3⟩

end Collage

namespace BrowserApp

/-! ## Browser preview application (`src/browser_app.py`) -/

/-- The five integer parameters of the preview placeholder. -/
structure PreviewParams where
  width : Int
  height : Int
  margin : Int
  border : Int
  corner : Int
deriving DecidableEq

/-- Translated from `BrowserPreviewApp.generate_preview`
(`src/browser_app.py`, lines 152 to 156): the clamping applied to the five
parameters.  It is the first thing `generate_preview` does, before any
drawing call; all subsequent geometry uses only these clamped values. -/
def generate_preview_clamped (width height margin border corner : Int) :
    PreviewParams :=
  let w := max 50 (min width 4000)
  let h := max 50 (min height 4000)
  let m := max 0 (min margin (min w h / 2))
  let b := max 0 (min border (min w h / 2))
  let c := max 0 (min corner (min w h / 2))
  ⟨w, h, m, b, c⟩

/-- Claim C3: for arbitrary integer arguments, width and height are
clamped into `[50, 4000]` and margin, border and corner are each clamped
into `[0, min(width, height) / 2]` (with the clamped width and height)
before any drawing. -/
theorem claim_C3 (width height margin border corner : Int) :
    (50 ≤ (generate_preview_clamped width height margin border corner).width ∧
      (generate_preview_clamped width height margin border corner).width ≤ 4000) ∧
    (50 ≤ (generate_preview_clamped width height margin border corner).height ∧
      (generate_preview_clamped width height margin border corner).height ≤ 4000) ∧
    (0 ≤ (generate_preview_clamped width height margin border corner).margin ∧
      (generate_preview_clamped width height margin border corner).margin ≤
        min (generate_preview_clamped width height margin border corner).width
          (generate_preview_clamped width height margin border corner).height / 2) ∧
    (0 ≤ (generate_preview_clamped width height margin border corner).border ∧
      (generate_preview_clamped width height margin border corner).border ≤
        min (generate_preview_clamped width height margin border corner).width
          (generate_preview_clamped width height margin border corner).height / 2) ∧
    (0 ≤ (generate_preview_clamped width height margin border corner).corner ∧
      (generate_preview_clamped width height margin border corner).corner ≤
        min (generate_preview_clamped width height margin border corner).width
          (generate_preview_clamped width height margin border corner).height / 2) := by
  unfold generate_preview_clamped
  dsimp only
  have hw1 : (50 : Int) ≤ max 50 (min width 4000) := le_max_left _ _
  have hw2 : max 50 (min width 4000) ≤ 4000 :=
    max_le (by norm_num) (min_le_right _ _)
  have hh1 : (50 : Int) ≤ max 50 (min height 4000) := le_max_left _ _
  have hh2 : max 50 (min height 4000) ≤ 4000 :=
    max_le (by norm_num) (min_le_right _ _)
  have hd0 : (0 : Int) ≤
      min (max 50 (min width 4000)) (max 50 (min height 4000)) / 2 := by
    apply Int.ediv_nonneg _ (by norm_num)
    exact le_min (by linarith) (by linarith)
  refine ⟨⟨hw1, hw2⟩, ⟨hh1, hh2⟩, ⟨le_max_left _ _, ?_⟩,
    ⟨le_max_left _ _, ?_⟩, ⟨le_max_left _ _, ?_⟩⟩ <;>
    exact max_le hd0 (min_le_right _ _)

/-! ## Query parameter handling of `_PreviewRequestHandler._handle_preview` -/

/-- Digit run of a Python integer literal after its first digit: decimal
digits, optionally separated by single underscores that must stand
between two digits (the rule `int` uses since Python 3.6). -/
def digitsRest : List Char → Nat → Option Nat
  | [], acc => some acc
  | [c], acc =>
    if c.isDigit then some (acc * 10 + (c.toNat - 48)) else none
  | c :: d :: cs, acc =>
    if c.isDigit then digitsRest (d :: cs) (acc * 10 + (c.toNat - 48))
    else if c = '_' ∧ d.isDigit then digitsRest cs (acc * 10 + (d.toNat - 48))
    else none

/-- Nonempty digit run: the first character must be a digit. -/
def parseDigits : List Char → Option Nat
  | [] => none
  | c :: cs => if c.isDigit then digitsRest cs (c.toNat - 48) else none

/-- Translated from the behaviour of the Python builtin `int(str)` as used
by `_handle_preview`: surrounding whitespace is stripped, an optional
sign is consumed, and the remainder must be a nonempty digit run;
anything else raises `ValueError`, modelled as `none`. -/
def pyParseInt (s : String) : Option Int :=
  let l :=
    ((s.data.dropWhile Char.isWhitespace).reverse.dropWhile
      Char.isWhitespace).reverse
  match l with
  | '+' :: cs => (parseDigits cs).map (fun n => (n : Int))
  | '-' :: cs => (parseDigits cs).map (fun n => -(n : Int))
  | cs => (parseDigits cs).map (fun n => (n : Int))

/-- Translated from `_handle_preview`: the value list a query maps a key
to; the empty list stands for both a missing key and a key with no
values, matching the guard `key in query and query[key]`. -/
def lookupQuery (q : List (String × List String)) (k : String) : List String :=
  match q.find? (fun p => p.1 == k) with
  | some p => p.2
  | none => []

/-- Translated from `_handle_preview` (`src/browser_app.py`, lines 109 to
115): one parameter is taken from the first query value for its key when
that parses as an integer, and silently falls back to the default
otherwise (`except ValueError: continue`). -/
def paramValue (q : List (String × List String)) (k : String) (d : Int) : Int :=
  match lookupQuery q k with
  | [] => d
  | v :: _ =>
    match pyParseInt v with
    | some n => n
    | none => d

/-- Translated from `_handle_preview` together with `DEFAULT_PARAMS`
(`src/browser_app.py`, lines 18 to 24): the five parameters handed to
`generate_preview`, each defaulting to its `DEFAULT_PARAMS` entry. -/
def handle_preview_params (q : List (String × List String)) : PreviewParams :=
  { width := paramValue q "width" 500
    height := paramValue q "height" 500
    margin := paramValue q "margin" 10
    border := paramValue q "border" 4
    corner := paramValue q "corner" 70 }

/-- Claim C10: each of the five parameters is taken from the query string
only when present and parseable as an integer; a missing or non-integer
value falls back to the defaults 500, 500, 10, 4, 70, and the handler is
total on every query. -/
theorem claim_C10 (q : List (String × List String)) :
    ((handle_preview_params q).width = paramValue q "width" 500 ∧
      (handle_preview_params q).height = paramValue q "height" 500 ∧
      (handle_preview_params q).margin = paramValue q "margin" 10 ∧
      (handle_preview_params q).border = paramValue q "border" 4 ∧
      (handle_preview_params q).corner = paramValue q "corner" 70) ∧
    ∀ (k : String) (d : Int),
      (lookupQuery q k = [] → paramValue q k d = d) ∧
      (∀ v vs, lookupQuery q k = v :: vs → pyParseInt v = none →
        paramValue q k d = d) ∧
      (∀ v vs n, lookupQuery q k = v :: vs → pyParseInt v = some n →
        paramValue q k d = n) := by
  refine ⟨⟨rfl, rfl, rfl, rfl, rfl⟩, ?_⟩
  intro k d
  refine ⟨?_, ?_, ?_⟩
  · intro h
    simp [paramValue, h]
  · intro v vs h hp
    simp [paramValue, h, hp]
  · intro v vs n h hp
    simp [paramValue, h, hp]

/-- A sample query string: a malformed width, a well-formed margin, an
empty corner value list, and no other keys. -/
def exampleQuery : List (String × List String) :=
  [("width", ["abc"]), ("margin", ["15"]), ("corner", [])]

/-- Claim C10 witness: on the sample query, the malformed width falls
back to 500, the parseable margin is taken as 15, and the absent height
falls back to 500. -/
theorem claim_C10_witness :
    (handle_preview_params exampleQuery).width = 500 ∧
      (handle_preview_params exampleQuery).margin = 15 ∧
      (handle_preview_params exampleQuery).height = 500 := by
  obtain ⟨⟨hw, hh, hm, _, _⟩, hgen⟩ := claim_C10 exampleQuery
  refine ⟨?_, ?_, ?_⟩
  · rw [hw]
    exact (hgen "width" 500).2.1 "abc" [] rfl rfl
  · rw [hm]
    exact (hgen "margin" 10).2.2 "15" [] 15 rfl rfl
  · rw [hh]
    exact (hgen "height" 500).1 rfl

end BrowserApp

namespace HeadlessTk

/-! ## Widget destruction (`src/_headless_tk.py`) -/

/-- The part of the state of a `Widget` object that destruction touches:
the id of its master, if any, and the ids of its children. -/
structure WidgetData where
  masterId : Option Nat
  childIds : List Nat
deriving DecidableEq

/-- The object store: a map from object ids to widget state.  Python
objects persist after `destroy`; destruction only mutates fields. -/
abbrev WidgetStore := Nat → Option WidgetData

/-- Point update of the store. -/
def setWidget (s : WidgetStore) (i : Nat) (d : WidgetData) : WidgetStore :=
  fun j => if j = i then some d else s j

/-- Translated from `Widget._remove_child` (`src/_headless_tk.py`, lines
111 to 113): removes the child from the list of children only when
present, so it never raises. -/
def removeChild (s : WidgetStore) (m c : Nat) : WidgetStore :=
  match s m with
  | none => s
  | some dm =>
    if c ∈ dm.childIds then
      setWidget s m { dm with childIds := dm.childIds.erase c }
    else s

/-- Translated from `Widget.destroy` (`src/_headless_tk.py`, lines 164 to
169): destroys each child of a snapshot of the list of children, clears
the own list of children, then removes itself from its master.  The
recursion is fuelled because the Python object graph is untyped; any
fuel at least the tree height reproduces the Python behaviour. -/
def destroy : Nat → WidgetStore → Nat → WidgetStore
  | 0, s, _ => s
  | Nat.succ fuel, s, i =>
    match s i with
    | none => s
    | some d =>
      let s1 := d.childIds.foldl (fun acc c => destroy fuel acc c) s
      let s2 :=
        match s1 i with
        | none => s1
        | some d1 => setWidget s1 i { d1 with childIds := [] }
      match d.masterId with
      | none => s2
      | some m => removeChild s2 m i

/-- Replacing the stored data of a widget with the identical data leaves
the store unchanged. -/
theorem setWidget_self (s : WidgetStore) (i : Nat) (d : WidgetData)
    (h : s i = some d) : setWidget s i d = s := by
  funext j
  unfold setWidget
  by_cases hj : j = i
  · subst hj
    rw [if_pos rfl, h]
  · rw [if_neg hj]

/-- Claim C8: destroying an already-destroyed widget is a no-op.  A
destroyed widget has an empty list of children and is no longer among
the children of its master; on such a widget `destroy` raises no error
(the model is total) and returns the store unchanged. -/
theorem claim_C8 (s : WidgetStore) (i : Nat) (f : Nat) (d : WidgetData)
    (h1 : s i = some d) (h2 : d.childIds = [])
    (h3 : ∀ m, d.masterId = some m →
      ∀ dm, s m = some dm → i ∉ dm.childIds) :
    destroy (f + 1) s i = s := by
  have hd : { d with childIds := ([] : List Nat) } = d := by
    cases d
    simp_all
  show (match s i with
    | none => s
    | some d =>
      let s1 := d.childIds.foldl (fun acc c => destroy f acc c) s
      let s2 :=
        match s1 i with
        | none => s1
        | some d1 => setWidget s1 i { d1 with childIds := [] }
      match d.masterId with
      | none => s2
      | some m => removeChild s2 m i) = s
  rw [h1]
  dsimp only
  rw [h2]
  dsimp only [List.foldl_nil]
  rw [h1]
  dsimp only
  rw [hd, setWidget_self s i d h1]
  cases hm : d.masterId with
  | none => rfl
  | some m =>
    dsimp only
    unfold removeChild
    cases hsm : s m with
    | none => rfl
    | some dm =>
      dsimp only
      rw [if_neg (h3 m hm dm hsm)]

/-- A two-widget store: widget 0 is the master of widget 1. -/
def exampleStore : WidgetStore := fun j =>
  if j = 0 then some { masterId := none, childIds := [1] }
  else if j = 1 then some { masterId := some 0, childIds := [] }
  else none

/-- Claim C8 witness: after destroying widget 1 in the concrete
two-widget store, a second destroy returns the store unchanged. -/
theorem claim_C8_witness :
    destroy 3 (destroy 3 exampleStore 1) 1 = destroy 3 exampleStore 1 :=
  claim_C8 (destroy 3 exampleStore 1) 1 2 { masterId := some 0, childIds := [] }
    rfl rfl
    (by
      intro m hm dm hdm
      injection hm with hm0
      subst hm0
      have hc : destroy 3 exampleStore 1 0 =
          some { masterId := none, childIds := ([] : List Nat) } := rfl
      rw [hc] at hdm
      injection hdm with hdm0
      subst hdm0
      simp)

end HeadlessTk


